import Mathlib

/-!
Verification of the youtube-ai-assistant repository against its specification.

The development shallowly embeds the repository's Python sources:

* `utils.py` : `extract_video_id` (a regular-expression search) and
  `fetch_transcript` (two-stage language fallback around an external
  transcript provider, modelled as an oracle).
* `rag_system.py` : the `RAGSystem` class (configuration, prompt template,
  indexing, retrieval chain and `query`), with the external embedding and
  language-model services modelled as oracle functions.
* `app.py` : the Process Video button handler acting on the Streamlit
  session state.

The text splitter (`RecursiveCharacterTextSplitter`) and the vector-store
retrieval (`FAISS` similarity search) are third-party components whose code
is not part of the repository; they are modelled from the specification's
contracts, as marked in their doc comments.
-/

/-! ## utils.extract_video_id

Python source:
`pattern = r"(?:v=|/)([0-9A-Za-z_-]{11})(?:[&?]|$)"`,
`match = re.search(pattern, url)`,
`return match.group(1) if match else None`.
-/

/-- Character class `[0-9A-Za-z_-]` of the video-id pattern. -/
def isIdChar (c : Char) : Bool :=
  c.isAlphanum || c == '_' || c == '-'

/-- Terminator `(?:[&?]|$)` of the video-id pattern: the character `&` or `?`,
end of string, or (Python `$` semantics) the position before a final newline. -/
def terminatorOk : List Char → Bool
  | [] => true
  | '&' :: _ => true
  | '?' :: _ => true
  | ['\n'] => true
  | _ => false

/-- Attempt `([0-9A-Za-z_-]{11})(?:[&?]|$)` at the start of `s`, returning the
11-character capture group on success. -/
def matchToken (s : List Char) : Option (List Char) :=
  if (s.take 11).all isIdChar && ((s.take 11).length == 11)
      && terminatorOk (s.drop 11) then
    some (s.take 11)
  else
    none

/-- One match attempt of `(?:v=|/)` followed by the token at the current
position; the regex engine tries the alternative `v=` first, then `/`. -/
def tryAt (s : List Char) : Option (List Char) :=
  match s with
  | [] => none
  | c1 :: rest1 =>
    if c1 == 'v' then
      match rest1 with
      | [] => none
      | c2 :: rest2 => if c2 == '=' then matchToken rest2 else none
    else if c1 == '/' then matchToken rest1
    else none

/-- `re.search` semantics: scan start positions left to right, the first
position with a full match wins. -/
def reSearch : List Char → Option (List Char)
  | [] => none
  | c :: rest => Option.or (tryAt (c :: rest)) (reSearch rest)

/-- `utils.extract_video_id`: the group of the first regex match, `none`
(Python `None`) when the pattern does not occur. -/
def extract_video_id (url : List Char) : Option (List Char) :=
  reSearch url

/-- URL head of the shape `.../watch?v=ID`. -/
def watchBase : List Char :=
  ['h','t','t','p','s',':','/','/','w','w','w','.','y','o','u','t','u','b','e',
   '.','c','o','m','/','w','a','t','c','h','?','v','=']

/-- URL head of the shape `youtu.be/ID`. -/
def shortBase : List Char :=
  ['h','t','t','p','s',':','/','/','y','o','u','t','u','.','b','e','/']

/-- URL head of the shape `.../embed/ID`. -/
def embedBase : List Char :=
  ['h','t','t','p','s',':','/','/','w','w','w','.','y','o','u','t','u','b','e',
   '.','c','o','m','/','e','m','b','e','d','/']

lemma matchToken_exact (id tl : List Char) (h1 : id.length = 11)
    (h2 : id.all isIdChar = true) (h3 : terminatorOk tl = true) :
    matchToken (id ++ tl) = some id := by
  have ht : (id ++ tl).take 11 = id := List.take_left' h1
  have hd : (id ++ tl).drop 11 = tl := List.drop_left' h1
  simp [matchToken, ht, hd, h1, h2, h3]

lemma matchToken_sound (s tok : List Char) (h : matchToken s = some tok) :
    tok.length = 11 ∧ tok.all isIdChar = true := by
  unfold matchToken at h
  split at h
  case isTrue hc =>
    have htok : s.take 11 = tok := Option.some.inj h
    simp only [Bool.and_eq_true, beq_iff_eq] at hc
    exact htok ▸ ⟨hc.1.2, hc.1.1⟩
  case isFalse => exact absurd h (by simp)

lemma tryAt_sound (s tok : List Char) (h : tryAt s = some tok) :
    tok.length = 11 ∧ tok.all isIdChar = true := by
  unfold tryAt at h
  split at h
  · exact absurd h (by simp)
  · split at h
    · split at h
      · exact absurd h (by simp)
      · split at h
        · exact matchToken_sound _ _ h
        · exact absurd h (by simp)
    · split at h
      · exact matchToken_sound _ _ h
      · exact absurd h (by simp)

lemma reSearch_sound (url tok : List Char) (h : reSearch url = some tok) :
    tok.length = 11 ∧ tok.all isIdChar = true := by
  induction url with
  | nil => simp [reSearch] at h
  | cons c rest ih =>
    rw [reSearch] at h
    cases htry : tryAt (c :: rest) with
    | some r =>
      rw [htry] at h
      simp [Option.or] at h
      subst h
      exact tryAt_sound _ _ htry
    | none =>
      rw [htry] at h
      simp [Option.or] at h
      exact ih h

/-- C5: for each of the three recognized URL shapes carrying an 11-character
token over `[0-9A-Za-z_-]` terminated by `&`, `?` or the end of the string,
`extract_video_id` returns exactly that token; any returned token is an
11-character token over that alphabet (so a URL lacking one yields `none`,
never an exception); and on `https://www.youtube.com/watch?v=dQw4w9WgXcQ` it
returns `dQw4w9WgXcQ`. -/
theorem extract_video_id_spec :
    (∀ id tl : List Char, id.length = 11 → id.all isIdChar = true →
      terminatorOk tl = true →
      extract_video_id (watchBase ++ id ++ tl) = some id ∧
      extract_video_id (shortBase ++ id ++ tl) = some id ∧
      extract_video_id (embedBase ++ id ++ tl) = some id) ∧
    (∀ url tok : List Char, extract_video_id url = some tok →
      tok.length = 11 ∧ tok.all isIdChar = true) ∧
    extract_video_id "https://www.youtube.com/watch?v=dQw4w9WgXcQ".data =
      some "dQw4w9WgXcQ".data ∧
    extract_video_id "https://example.com/page".data = none := by
  refine ⟨?_, ?_, by decide, by decide⟩
  · intro id tl h1 h2 h3
    have hm : matchToken (id ++ tl) = some id := matchToken_exact id tl h1 h2 h3
    refine ⟨?_, ?_, ?_⟩
    · have step : extract_video_id (watchBase ++ id ++ tl) =
          Option.or (matchToken (id ++ tl)) (reSearch ('=' :: (id ++ tl))) := by
        rw [List.append_assoc]
        rfl
      rw [step, hm]
      rfl
    · have step : extract_video_id (shortBase ++ id ++ tl) =
          Option.or (matchToken (id ++ tl)) (reSearch (id ++ tl)) := by
        rw [List.append_assoc]
        rfl
      rw [step, hm]
      rfl
    · have step : extract_video_id (embedBase ++ id ++ tl) =
          Option.or (matchToken (id ++ tl)) (reSearch (id ++ tl)) := by
        rw [List.append_assoc]
        rfl
      rw [step, hm]
      rfl
  · exact reSearch_sound

/-- Witness for C5 at the concrete id `dQw4w9WgXcQ` with empty tail. -/
theorem extract_video_id_spec_witness :
    extract_video_id (watchBase ++ "dQw4w9WgXcQ".data ++ []) =
      some "dQw4w9WgXcQ".data :=
  (extract_video_id_spec.1 "dQw4w9WgXcQ".data [] (by decide) (by decide)
    (by decide)).1

/-! ## utils.fetch_transcript

Python source: `ytt_api.fetch(video_id, languages=["en"])` inside `try`;
`except NoTranscriptFound:` retries once with
`languages=["auto", "hi", "en"]`; a failure of that retry is wrapped as
`RuntimeError(f"... Transcript not available for this video: {e}")`.
The external transcript provider is modelled as an oracle mapping a
language preference list to an outcome; the embedding also records the list
of provider calls made. -/

/-- One timed transcript snippet as returned by the provider. -/
structure Snippet where
  text : String
deriving DecidableEq

/-- The provider's fetched transcript: an ordered list of snippets. -/
structure FetchedTranscript where
  snippets : List Snippet
deriving DecidableEq

/-- Outcome of one provider call: success, the provider's no-transcript-found
signal (`NoTranscriptFound`), or any other exception. -/
inductive FetchOutcome where
  | success (t : FetchedTranscript)
  | noTranscriptFound (msg : String)
  | otherError (msg : String)
deriving DecidableEq

/-- Result of `fetch_transcript`: the joined text, the wrapping
`RuntimeError` (the spec's `TranscriptUnavailable`), or an exception
propagated unwrapped. -/
inductive FetchResult where
  | ok (text : String)
  | unavailable (msg : String)
  | raw (msg : String)
deriving DecidableEq

/-- The fallback language list of the second provider call. -/
def fallbackLangs : List String := ["auto", "hi", "en"]

/-- Message of the wrapping `RuntimeError`, with the cause appended. -/
def transcriptMsg (e : String) : String :=
  "❌ Transcript not available for this video: " ++ e

/-- `" ".join([snippet.text for snippet in fetched_transcript.snippets])`. -/
def joinSnippets (t : FetchedTranscript) : String :=
  String.intercalate " " (t.snippets.map Snippet.text)

/-- `utils.fetch_transcript`, with the provider as an oracle; the second
component records the provider calls in order. -/
def fetch_transcript (oracle : List String → FetchOutcome) :
    FetchResult × List (List String) :=
  match oracle ["en"] with
  | .success t => (.ok (joinSnippets t), [["en"]])
  | .noTranscriptFound _ =>
    match oracle fallbackLangs with
    | .success t => (.ok (joinSnippets t), [["en"], fallbackLangs])
    | .noTranscriptFound e2 =>
      (.unavailable (transcriptMsg e2), [["en"], fallbackLangs])
    | .otherError e2 =>
      (.unavailable (transcriptMsg e2), [["en"], fallbackLangs])
  | .otherError e => (.raw e, [["en"]])

/-- C6: the fetch tries `["en"]` first; on the no-transcript-found signal it
makes exactly one combined fallback call with `["auto", "hi", "en"]`; if the
fallback also fails (with either failure kind), the result is the single
wrapping error carrying the underlying cause, not the raw provider error. -/
theorem fetch_transcript_fallback_spec (oracle : List String → FetchOutcome) :
    (∀ t, oracle ["en"] = .success t →
      fetch_transcript oracle = (.ok (joinSnippets t), [["en"]])) ∧
    (∀ e1 t, oracle ["en"] = .noTranscriptFound e1 →
      oracle fallbackLangs = .success t →
      fetch_transcript oracle = (.ok (joinSnippets t), [["en"], fallbackLangs])) ∧
    (∀ e1 e2, oracle ["en"] = .noTranscriptFound e1 →
      (oracle fallbackLangs = .noTranscriptFound e2 ∨
        oracle fallbackLangs = .otherError e2) →
      fetch_transcript oracle =
        (.unavailable (transcriptMsg e2), [["en"], fallbackLangs])) := by
  refine ⟨?_, ?_, ?_⟩
  · intro t h1
    simp [fetch_transcript, h1]
  · intro e1 t h1 h2
    simp [fetch_transcript, h1, h2]
  · intro e1 e2 h1 h2
    rcases h2 with h2 | h2 <;> simp [fetch_transcript, h1, h2]

/-- Oracle with no English transcript and a failing fallback call. -/
def oracleFailEx : List String → FetchOutcome := fun langs =>
  if langs = ["en"] then .noTranscriptFound "nt" else .otherError "quota"

/-- Witness for C6: concrete oracle whose fallback fails. -/
theorem fetch_transcript_fallback_spec_witness :
    fetch_transcript oracleFailEx =
      (.unavailable (transcriptMsg "quota"), [["en"], fallbackLangs]) :=
  (fetch_transcript_fallback_spec oracleFailEx).2.2 "nt" "quota" (by decide)
    (Or.inr (by decide))

/-- C8: on every successful fetch (direct or via the fallback call), the
returned text is the snippet texts, in provider order, joined by a single
space. -/
theorem fetch_transcript_join_spec (oracle : List String → FetchOutcome) :
    (∀ t, oracle ["en"] = .success t →
      (fetch_transcript oracle).1 =
        .ok (String.intercalate " " (t.snippets.map Snippet.text))) ∧
    (∀ e1 t, oracle ["en"] = .noTranscriptFound e1 →
      oracle fallbackLangs = .success t →
      (fetch_transcript oracle).1 =
        .ok (String.intercalate " " (t.snippets.map Snippet.text))) := by
  constructor
  · intro t h1
    simp [fetch_transcript, h1, joinSnippets]
  · intro e1 t h1 h2
    simp [fetch_transcript, h1, h2, joinSnippets]

/-- Oracle returning a two-snippet transcript on every call. -/
def oracleOkEx : List String → FetchOutcome := fun _ =>
  .success ⟨[⟨"hello"⟩, ⟨"world"⟩]⟩

/-- Witness for C8: the two snippets are joined with one space. -/
theorem fetch_transcript_join_spec_witness :
    (fetch_transcript oracleOkEx).1 =
      .ok (String.intercalate " "
        (([⟨"hello"⟩, ⟨"world"⟩] : List Snippet).map Snippet.text)) :=
  (fetch_transcript_join_spec oracleOkEx).1 ⟨[⟨"hello"⟩, ⟨"world"⟩]⟩ rfl

/-- C10: an error of the first (`["en"]`) call other than the provider's
no-transcript-found signal propagates unwrapped, and the fallback call is
never made (the call trace is exactly `[["en"]]`). -/
theorem fetch_transcript_raw_error_spec (oracle : List String → FetchOutcome)
    (e : String) (h : oracle ["en"] = .otherError e) :
    fetch_transcript oracle = (.raw e, [["en"]]) := by
  simp [fetch_transcript, h]

/-- Oracle that always fails with a non-no-transcript-found error. -/
def oracleAuthEx : List String → FetchOutcome := fun _ => .otherError "auth"

/-- Witness for C10 at a concrete erroring oracle. -/
theorem fetch_transcript_raw_error_spec_witness :
    fetch_transcript oracleAuthEx = (.raw "auth", [["en"]]) :=
  fetch_transcript_raw_error_spec oracleAuthEx "auth" rfl

/-! ## Chunker (spec-modelled)

The repository delegates splitting to the third-party
`RecursiveCharacterTextSplitter(chunk_size=..., chunk_overlap=...)`
(`rag_system.py`), whose code is not part of this repository. The splitter
below is modelled from the specification's contract. -/

/-- Worker of the splitter: emit a window of at most `size` characters and
advance by `step = size - overlap` characters, so that consecutive windows
share `overlap` characters; the fuel argument (initialised to the text
length) only forces structural termination and is never exhausted when
`0 < step`. -/
def splitGo (fuel size step : Nat) (t : List Char) : List (List Char) :=
  match fuel with
  | 0 => [t]
  | fuel2 + 1 =>
    if t.length ≤ size ∨ step = 0 then [t]
    else t.take size :: splitGo fuel2 size step (t.drop step)

/-- Modelled from the spec: `split(text, chunkSize, chunkOverlap)` of the
Chunker contract (the repository's splitter is the third-party
`RecursiveCharacterTextSplitter`, absent from the sources). It cuts the text
into segments of at most `chunkSize` characters such that consecutive
segments share `chunkOverlap` characters, the empty text giving no chunk. -/
def split (text : List Char) (chunkSize chunkOverlap : Nat) : List (List Char) :=
  if text.isEmpty then []
  else splitGo text.length chunkSize (chunkSize - chunkOverlap) text

lemma splitGo_ne_nil (fuel size step : Nat) (t : List Char) :
    splitGo fuel size step t ≠ [] := by
  cases fuel with
  | zero => simp [splitGo]
  | succ fuel2 =>
    unfold splitGo
    split <;> simp

lemma splitGo_head (fuel size step : Nat) (t : List Char)
    (hf : t.length ≤ fuel) (hstep : step ≠ 0) :
    (splitGo fuel size step t).head? = some (t.take size) := by
  cases fuel with
  | zero =>
    have ht : t = [] := List.eq_nil_of_length_eq_zero (Nat.le_zero.mp hf)
    subst ht
    simp [splitGo]
  | succ fuel2 =>
    unfold splitGo
    split
    case isTrue hc =>
      rcases hc with hle | hz
      · simp [List.take_of_length_le hle]
      · exact absurd hz hstep
    case isFalse => simp

lemma splitGo_length_le (size step : Nat) (hstep : step ≠ 0) :
    ∀ fuel t, t.length ≤ fuel →
      ∀ c ∈ splitGo fuel size step t, c.length ≤ size := by
  intro fuel
  induction fuel with
  | zero =>
    intro t hf c hc
    have ht : t = [] := List.eq_nil_of_length_eq_zero (Nat.le_zero.mp hf)
    subst ht
    simp [splitGo] at hc
    simp [hc]
  | succ fuel2 ih =>
    intro t hf c hc
    unfold splitGo at hc
    split at hc
    case isTrue hcond =>
      rcases hcond with hle | hz
      · simp at hc
        subst hc
        exact hle
      · exact absurd hz hstep
    case isFalse hcond =>
      rcases List.mem_cons.mp hc with hc1 | hc2
      · subst hc1
        simp
      · refine ih (t.drop step) ?_ c hc2
        have hlen : t.length - step ≤ fuel2 := by omega
        simpa using hlen

/-- Boundary relation of C4: the last `overlap` characters of a chunk are
exactly the first `overlap` characters of the next chunk. -/
def OverlapRel (overlap : Nat) (a b : List Char) : Prop :=
  a.drop (a.length - overlap) = b.take overlap ∧
    (a.drop (a.length - overlap)).length = overlap

lemma splitGo_chain (size overlap : Nat) (h : overlap < size) :
    ∀ fuel t, t.length ≤ fuel →
      List.Chain' (OverlapRel overlap)
        (splitGo fuel size (size - overlap) t) := by
  intro fuel
  induction fuel with
  | zero =>
    intro t hf
    simp [splitGo]
  | succ fuel2 ih =>
    intro t hf
    unfold splitGo
    split
    case isTrue => simp
    case isFalse hcond =>
      push_neg at hcond
      obtain ⟨hlen, hstep⟩ := hcond
      have hdf : (t.drop (size - overlap)).length ≤ fuel2 := by
        simp only [List.length_drop]
        omega
      refine List.chain'_cons'.mpr ⟨?_, ih _ hdf⟩
      intro b hb
      rw [splitGo_head fuel2 size (size - overlap) _ hdf hstep] at hb
      have hb2 : b = (t.drop (size - overlap)).take size :=
        (Option.some.inj hb).symm
      subst hb2
      have hla : (t.take size).length = size := by
        rw [List.length_take]
        omega
      constructor
      · rw [hla, List.drop_take, List.take_take]
        have he1 : size - (size - overlap) = overlap := by omega
        rw [he1, Nat.min_eq_left (Nat.le_of_lt h)]
      · rw [hla, List.drop_take]
        simp only [List.length_take, List.length_drop]
        omega

/-- C4: with `chunkOverlap < chunkSize`, every chunk produced by `split` has
at most `chunkSize` characters, and every pair of consecutive chunks shares a
boundary region of exactly `chunkOverlap` characters (the suffix of the first
chunk equals the prefix of the next chunk). -/
theorem split_size_overlap_spec (text : List Char) (size overlap : Nat)
    (h : overlap < size) :
    (∀ c ∈ split text size overlap, c.length ≤ size) ∧
    List.Chain' (OverlapRel overlap) (split text size overlap) := by
  unfold split
  split
  case isTrue => simp
  case isFalse =>
    have hstep : size - overlap ≠ 0 := by omega
    exact ⟨splitGo_length_le size (size - overlap) hstep text.length text
        (Nat.le_refl _),
      splitGo_chain size overlap h text.length text (Nat.le_refl _)⟩

/-- Witness for C4 on the text `abcdefgh` with size 4 and overlap 1. -/
theorem split_size_overlap_spec_witness :
    1 < 4 ∧
    ((∀ c ∈ split ['a','b','c','d','e','f','g','h'] 4 1, c.length ≤ 4) ∧
      List.Chain' (OverlapRel 1) (split ['a','b','c','d','e','f','g','h'] 4 1)) :=
  ⟨by decide,
    split_size_overlap_spec ['a','b','c','d','e','f','g','h'] 4 1 (by decide)⟩

/-- C7: `split` yields no chunk exactly on the empty text, and at least one
chunk on every non-empty text. -/
theorem split_chunk_existence (size overlap : Nat) :
    split [] size overlap = [] ∧
    ∀ text : List Char, text ≠ [] → split text size overlap ≠ [] := by
  constructor
  · rfl
  · intro text ht
    cases text with
    | nil => exact absurd rfl ht
    | cons a l =>
      simpa [split] using
        splitGo_ne_nil (a :: l).length size (size - overlap) (a :: l)

/-- Witness for C7 on the one-character text `a`. -/
theorem split_chunk_existence_witness :
    (['a'] : List Char) ≠ [] ∧ split ['a'] 4 1 ≠ [] :=
  ⟨by decide, (split_chunk_existence 4 1).2 ['a'] (by decide)⟩

/-! ## EmbeddingIndex retrieval (spec-modelled)

`rag_system.py` configures
`vector_store.as_retriever(search_type="similarity", search_kwargs={"k": k})`
over a FAISS store; the nearest-neighbour search itself is third-party code
absent from the repository and is modelled from the specification's
`retrieve(index, query, k)` contract. -/

/-- An embedding vector (the provider's fixed-dimension numeric vector). -/
abbrev Vec : Type := List Int

/-- A chunk as stored in the index (`page_content` of a langchain document). -/
structure Document where
  page_content : String
deriving DecidableEq

/-- The built index: one (chunk, vector) pair per indexed chunk. -/
abbrev VectorStore : Type := List (Document × Vec)

/-- Inner-product similarity between two vectors. -/
def dot (a b : Vec) : Int :=
  (List.zipWith (fun x y => x * y) a b).sum

/-- Modelled from the spec: similarity retrieval of the EmbeddingIndex
contract (the repository's retriever is FAISS, absent from the sources).
All indexed pairs sorted by non-increasing similarity to the query vector,
cut to the first `k`. -/
def retrievePairs (vs : VectorStore) (qv : Vec) (k : Nat) :
    List (Document × Vec) :=
  (List.insertionSort (fun a b => dot qv b.2 ≤ dot qv a.2) vs).take k

/-- Modelled from the spec: the retrieved chunks themselves, best match
first. -/
def retrieveDocs (vs : VectorStore) (qv : Vec) (k : Nat) : List Document :=
  (retrievePairs vs qv k).map Prod.fst

/-- C3: retrieval returns at most `k` chunks and never more than the number
of indexed chunks; when `k` is at least the number of indexed chunks it
returns all of them (a permutation of the index); and the retrieved pairs
are ordered by non-increasing similarity to the query. -/
theorem retrieve_top_k_sorted (vs : VectorStore) (qv : Vec) (k : Nat) :
    (retrieveDocs vs qv k).length ≤ k ∧
    (retrieveDocs vs qv k).length ≤ vs.length ∧
    (vs.length ≤ k → List.Perm (retrieveDocs vs qv k) (vs.map Prod.fst)) ∧
    List.Sorted (fun x y : Int => x ≥ y)
      ((retrievePairs vs qv k).map (fun p => dot qv p.2)) := by
  have hlen : (List.insertionSort (fun a b => dot qv b.2 ≤ dot qv a.2)
      vs).length = vs.length := List.length_insertionSort _ _
  refine ⟨?_, ?_, ?_, ?_⟩
  · simp [retrieveDocs, retrievePairs]
  · simp [retrieveDocs, retrievePairs, hlen]
  · intro hk
    have hall : retrievePairs vs qv k =
        List.insertionSort (fun a b => dot qv b.2 ≤ dot qv a.2) vs := by
      unfold retrievePairs
      exact List.take_of_length_le (by omega)
    unfold retrieveDocs
    rw [hall]
    exact (List.perm_insertionSort _ vs).map Prod.fst
  · have htot : IsTotal (Document × Vec)
        (fun a b => dot qv b.2 ≤ dot qv a.2) :=
      ⟨fun a b => Int.le_total (dot qv b.2) (dot qv a.2)⟩
    have htrans : IsTrans (Document × Vec)
        (fun a b => dot qv b.2 ≤ dot qv a.2) :=
      ⟨fun _ _ _ hab hbc => le_trans hbc hab⟩
    have hsorted : List.Sorted (fun a b => dot qv b.2 ≤ dot qv a.2)
        (List.insertionSort (fun a b => dot qv b.2 ≤ dot qv a.2) vs) :=
      List.sorted_insertionSort _ vs
    have htake : List.Sorted (fun a b => dot qv b.2 ≤ dot qv a.2)
        (retrievePairs vs qv k) :=
      List.Pairwise.sublist (List.take_sublist _ _) hsorted
    exact List.pairwise_map.mpr htake

/-- Two-chunk example index. -/
def vsEx : VectorStore := [(⟨"a"⟩, [1, 0]), (⟨"b"⟩, [0, 1])]

/-- Witness for C3: with `k = 5` larger than the two indexed chunks, all
chunks come back. -/
theorem retrieve_top_k_sorted_witness :
    (vsEx.length ≤ 5 ∧
      List.Perm (retrieveDocs vsEx [2, 3] 5) (vsEx.map Prod.fst)) ∧
    (retrieveDocs vsEx [2, 3] 5).length ≤ 5 :=
  ⟨⟨by decide, (retrieve_top_k_sorted vsEx [2, 3] 5).2.2.1 (by decide)⟩,
    (retrieve_top_k_sorted vsEx [2, 3] 5).1⟩

/-! ## rag_system.RAGSystem

Shallow embedding of the `RAGSystem` class. The external services are
oracle fields set at construction: `embed` (the `OpenAIEmbeddings` model,
`none` modelling an embedding-service failure) and `llm` (the `ChatOpenAI`
model composed with the string output parser). -/

/-- Errors raised by `RAGSystem`: `notIndexed` is the
`RuntimeError("System not indexed yet. Call index_transcript() first.")`
of `query` (the spec's `NotIndexedError`); `embeddingService` is an
embedding-provider failure during indexing or querying. -/
inductive RagError where
  | notIndexed
  | embeddingService
deriving DecidableEq

/-- Segments of the prompt template literal around the `{context}` slot. -/
def promptPart1 : String :=
  "You are an expert AI assistant. Use the following context to answer the question at the end.\n      if you don\x27t know the answer, just say that you don\x27t know, don\x27t try to make up an answer.\n        Context: "

/-- Segment of the prompt template between the two slots. -/
def promptPart2 : String := "\n        question: "

/-- Segment of the prompt template after the `{question}` slot. -/
def promptPart3 : String := "\n         "

/-- The `PromptTemplate` literal of `RAGSystem.__init__`. -/
def promptTemplate : String :=
  promptPart1 ++ "{context}" ++ promptPart2 ++ "{question}" ++ promptPart3

/-- Filling the template's `{context}` and `{question}` slots (Python
`str.format` semantics: the inserted values are not re-scanned). -/
def prompt_format (context question : String) : String :=
  promptPart1 ++ context ++ promptPart2 ++ question ++ promptPart3

/-- `RAGSystem._format_docs`:
`"\n\n".join([doc.page_content for doc in retrieved_docs])`. -/
def format_docs (docs : List Document) : String :=
  String.intercalate "\n\n" (docs.map Document.page_content)

/-- The retriever configured by `index_transcript`
(`search_type="similarity"`, `search_kwargs={"k": k}`). -/
structure Retriever where
  vs : VectorStore
  k : Nat
deriving DecidableEq

/-- The chain built by `_build_chain`: retriever piped into `format_docs`
in parallel with the question passthrough, then prompt, llm and parser. -/
structure Chain where
  vs : VectorStore
  k : Nat
  embed : String → Option Vec
  llm : String → String

/-- Invoking the chain on a question: embed the question, retrieve, format
the context, fill the prompt, call the language model. -/
def Chain.invoke (c : Chain) (question : String) : Except RagError String :=
  match c.embed question with
  | none => Except.error RagError.embeddingService
  | some qv =>
    Except.ok
      (c.llm (prompt_format (format_docs (retrieveDocs c.vs qv c.k)) question))

/-- The `RAGSystem` object state. -/
structure RAGSystem where
  chunk_size : Nat
  chunk_overlap : Nat
  k : Nat
  temperature : Rat
  embed : String → Option Vec
  llm : String → String
  vector_store : Option VectorStore
  retriever : Option Retriever
  chain : Option Chain

/-- `RAGSystem.__init__`: stores the configuration and leaves
`vector_store`, `retriever` and `chain` as `None`. -/
def RAGSystem.init (chunk_size chunk_overlap k : Nat) (temperature : Rat)
    (embed : String → Option Vec) (llm : String → String) : RAGSystem :=
  { chunk_size := chunk_size
    chunk_overlap := chunk_overlap
    k := k
    temperature := temperature
    embed := embed
    llm := llm
    vector_store := none
    retriever := none
    chain := none }

/-- `splitter.create_documents([transcript_text])`: the chunks of the
transcript as documents. -/
def createDocuments (text : String) (size overlap : Nat) : List Document :=
  (split text.data size overlap).map (fun cs => { page_content := String.mk cs })

/-- `FAISS.from_documents(chunks, embeddings_model)`: embed every chunk;
`none` models an embedding-service failure (the Python call raising before
any attribute of the object is assigned). -/
def from_documents (docs : List Document) (embed : String → Option Vec) :
    Option VectorStore :=
  docs.mapM (fun d => (embed d.page_content).map (fun v => (d, v)))

/-- `RAGSystem.index_transcript`: split, build the vector store, configure
the retriever and build the chain; on embedding failure the exception
propagates and the object is left unchanged. -/
def RAGSystem.index_transcript (sys : RAGSystem) (text : String) :
    Except RagError RAGSystem :=
  match from_documents (createDocuments text sys.chunk_size sys.chunk_overlap)
      sys.embed with
  | none => Except.error RagError.embeddingService
  | some vs =>
    Except.ok { sys with
      vector_store := some vs
      retriever := some { vs := vs, k := sys.k }
      chain := some { vs := vs, k := sys.k, embed := sys.embed, llm := sys.llm } }

/-- `RAGSystem.query`: raises the not-indexed `RuntimeError` when
`self.chain is None`, otherwise invokes the chain. -/
def RAGSystem.query (sys : RAGSystem) (question : String) :
    Except RagError String :=
  match sys.chain with
  | none => Except.error RagError.notIndexed
  | some c => c.invoke question

/-- Operations a caller can perform on a `RAGSystem` session. -/
inductive RagOp where
  | queryOp (q : String)
  | indexOp (text : String)

/-- One operation on the session: `query` never mutates the object, a
failed `index_transcript` leaves it unchanged, a successful one installs
the new state; the flag records whether some indexing call has succeeded. -/
def ragStepF (p : RAGSystem × Bool) (op : RagOp) : RAGSystem × Bool :=
  match op with
  | RagOp.queryOp _ => p
  | RagOp.indexOp t =>
    match p.1.index_transcript t with
    | Except.ok s2 => (s2, true)
    | Except.error _ => p

/-- Run a list of operations from a given system, starting with no
successful indexing call recorded. -/
def runOps (sys : RAGSystem) (ops : List RagOp) : RAGSystem × Bool :=
  List.foldl ragStepF (sys, false) ops

lemma runOps_flag_false (ops : List RagOp) :
    ∀ p : RAGSystem × Bool, (List.foldl ragStepF p ops).2 = false →
      List.foldl ragStepF p ops = p := by
  induction ops with
  | nil =>
    intro p _
    rfl
  | cons op ops ih =>
    intro p h
    rw [List.foldl_cons] at h ⊢
    have h2 := ih (ragStepF p op) h
    rw [h2] at h ⊢
    cases op with
    | queryOp q => rfl
    | indexOp t =>
      simp only [ragStepF] at h ⊢
      cases hidx : p.1.index_transcript t with
      | ok s2 =>
        rw [hidx] at h
        simp at h
      | error e => rfl

/-- C1: as long as no indexing call has succeeded (no chain has been
built), every `query` call fails with the not-indexed error and never
returns an answer. -/
theorem query_before_index_spec (cs co k : Nat) (temp : Rat)
    (embedO : String → Option Vec) (llmO : String → String)
    (ops : List RagOp) (q : String)
    (h : (runOps (RAGSystem.init cs co k temp embedO llmO) ops).2 = false) :
    (runOps (RAGSystem.init cs co k temp embedO llmO) ops).1.query q =
      Except.error RagError.notIndexed ∧
    ∀ a, (runOps (RAGSystem.init cs co k temp embedO llmO) ops).1.query q ≠
      Except.ok a := by
  have hrun : runOps (RAGSystem.init cs co k temp embedO llmO) ops =
      (RAGSystem.init cs co k temp embedO llmO, false) :=
    runOps_flag_false ops _ h
  rw [hrun]
  constructor
  · rfl
  · intro a hcontra
    simp [RAGSystem.query, RAGSystem.init] at hcontra

/-- Embedding oracle that always fails. -/
def embedNoneEx : String → Option Vec := fun _ => none

/-- Identity language-model oracle. -/
def llmIdEx : String → String := fun s => s

/-- A failed indexing attempt followed by a query. -/
def opsEx : List RagOp := [RagOp.indexOp "transcript", RagOp.queryOp "hi"]

/-- Witness for C1: after a failed indexing attempt, a query still fails
with the not-indexed error. -/
theorem query_before_index_spec_witness :
    (runOps (RAGSystem.init 1000 200 4 (1 / 5) embedNoneEx llmIdEx) opsEx).2 =
      false ∧
    (runOps (RAGSystem.init 1000 200 4 (1 / 5) embedNoneEx llmIdEx)
        opsEx).1.query "hi" = Except.error RagError.notIndexed :=
  ⟨rfl,
    (query_before_index_spec 1000 200 4 (1 / 5) embedNoneEx llmIdEx opsEx "hi"
      rfl).1⟩

/-- C9: after a successful `index_transcript`, `query` sends to the language
model exactly the fixed template filled with the question and with the
context built by joining the retrieved chunk texts, in retrieval order,
with a blank line. -/
theorem query_context_prompt_spec (sys sys2 : RAGSystem) (text q : String)
    (qv : Vec) (h1 : sys.index_transcript text = Except.ok sys2)
    (h2 : sys.embed q = some qv) :
    ∃ vs, sys2.vector_store = some vs ∧
      sys2.query q = Except.ok (sys.llm (prompt_format
        (String.intercalate "\n\n"
          ((retrieveDocs vs qv sys.k).map Document.page_content)) q)) ∧
      promptTemplate =
        promptPart1 ++ "{context}" ++ promptPart2 ++ "{question}"
          ++ promptPart3 := by
  unfold RAGSystem.index_transcript at h1
  cases hb : from_documents
      (createDocuments text sys.chunk_size sys.chunk_overlap) sys.embed with
  | none =>
    rw [hb] at h1
    exact absurd h1 (by simp)
  | some vs =>
    rw [hb] at h1
    have hs2 : sys2 = { sys with
        vector_store := some vs
        retriever := some (Retriever.mk vs sys.k)
        chain := some (Chain.mk vs sys.k sys.embed sys.llm) } :=
      (Except.ok.inj h1).symm
    subst hs2
    refine ⟨vs, rfl, ?_, rfl⟩
    simp [RAGSystem.query, Chain.invoke, h2, format_docs]

/-- Embedding oracle returning the same one-dimensional vector always. -/
def embedOneEx : String → Option Vec := fun _ => some [1]

/-- Example system before indexing. -/
def ragEx : RAGSystem := RAGSystem.init 1000 200 4 (1 / 5) embedOneEx llmIdEx

/-- Example system after indexing the transcript `hello`. -/
def ragEx2 : RAGSystem :=
  match ragEx.index_transcript "hello" with
  | Except.ok s => s
  | Except.error _ => ragEx

/-- Witness for C9 on the concrete indexed example system. -/
theorem query_context_prompt_spec_witness :
    ∃ vs, ragEx2.vector_store = some vs ∧
      ragEx2.query "hi" = Except.ok (ragEx.llm (prompt_format
        (String.intercalate "\n\n"
          ((retrieveDocs vs [1] ragEx.k).map Document.page_content)) "hi")) ∧
      promptTemplate =
        promptPart1 ++ "{context}" ++ promptPart2 ++ "{question}"
          ++ promptPart3 :=
  query_context_prompt_spec ragEx ragEx2 "hello" "hi" [1] rfl rfl

/-! ## app.py Process Video button handler

The handler reads the URL, extracts the video id (storing it in the session
on success), fetches the transcript, builds a fresh `RAGSystem` from the
sidebar configuration and indexes the transcript; only on full success does
it install the new system, set the indexed flag and reset the chat history;
any failure is caught by the surrounding `except`, which sets the indexed
flag to `False` and touches nothing else. The transcript fetch is modelled
as an oracle from video id to transcript or error. -/

/-- The Streamlit session state fields used by the handler. -/
structure SessionState where
  rag_system : Option RAGSystem
  indexed : Bool
  video_id : Option String
  chat_history : List (String × String)

/-- The Process Video button handler of `app.py`. -/
def process_video_click (s : SessionState) (url : String)
    (cs co k : Nat) (temp : Rat)
    (embedO : String → Option Vec) (llmO : String → String)
    (fetchO : String → Except String String) : SessionState :=
  if url = "" then s
  else
    match extract_video_id url.data with
    | none => { s with indexed := false }
    | some vid =>
      match fetchO (String.mk vid) with
      | Except.error _ =>
        { s with video_id := some (String.mk vid), indexed := false }
      | Except.ok transcript =>
        match (RAGSystem.init cs co k temp embedO llmO).index_transcript
            transcript with
        | Except.error _ =>
          { s with video_id := some (String.mk vid), indexed := false }
        | Except.ok rag =>
          { s with
            video_id := some (String.mk vid)
            rag_system := some rag
            indexed := true
            chat_history := [] }

/-- C2: every run of the handler either leaves the stored system and the
chat history both exactly as they were (every failing attempt does this),
or installs a new system and resets the chat history together in the same
step, with the indexed flag set — never one without the other. -/
theorem process_video_atomic (s : SessionState) (url : String)
    (cs co k : Nat) (temp : Rat)
    (embedO : String → Option Vec) (llmO : String → String)
    (fetchO : String → Except String String) :
    ((process_video_click s url cs co k temp embedO llmO fetchO).rag_system =
        s.rag_system ∧
      (process_video_click s url cs co k temp embedO llmO fetchO).chat_history =
        s.chat_history) ∨
    (∃ rag,
      (process_video_click s url cs co k temp embedO llmO fetchO).rag_system =
        some rag ∧
      (process_video_click s url cs co k temp embedO llmO fetchO).chat_history =
        [] ∧
      (process_video_click s url cs co k temp embedO llmO fetchO).indexed =
        true) := by
  unfold process_video_click
  split
  · exact Or.inl ⟨rfl, rfl⟩
  · split
    · exact Or.inl ⟨rfl, rfl⟩
    · split
      · exact Or.inl ⟨rfl, rfl⟩
      · split
        · exact Or.inl ⟨rfl, rfl⟩
        · exact Or.inr ⟨_, rfl, rfl, rfl⟩
